import Mathlib

/-!
Verification of the Hybrid Routing Decision Engine and its leaf components
(complexity classifier, domain classifier, confidence policy, local/cloud
attempt stages), plus the privacy scrubber and the file parsers.

The scrubber (`scrub`) and the parser front-end (`parse_file`) are embedded
from the Python sources.  The routing core itself (`generate_hybrid` /
`backend.main`) does not ship in the repository snapshot — only its design
notes, solution write-up and frontend callers do — so the router and its
policy components are modelled from the specification, with every tunable
(length threshold, marker set, fan-out threshold, confidence tiers,
leniency margin, latency accounting mode) exposed as configuration.

Confidence scores and latencies are modelled as rationals.
-/

namespace HybridRouting

/-- A tool offered with a request: a unique name and a description
(parameter schemas play no role in the routing decision). -/
structure Tool where
  name : String
  description : String
deriving DecidableEq, Repr

/-- A tool call produced by a backend: a tool name plus an arguments
mapping (modelled as key/value pairs). -/
structure ToolCall where
  name : String
  args : List (String × String)
deriving DecidableEq, Repr

/-- One conversation turn. -/
structure Message where
  role : String
  content : String
deriving DecidableEq, Repr

/-- Modelled from the spec: a Request is the ordered conversation turns, the
set of named Tools and the `forceLocal` flag, immutable once received. -/
structure Request where
  messages : List Message
  tools : List Tool
  forceLocal : Bool
deriving DecidableEq, Repr

/-- Source tag of an inference result. -/
inductive Source where
  | onDevice
  | cloud
deriving DecidableEq, Repr

/-- Modelled from the spec: an InferenceResult is an ordered sequence of
ToolCall (possibly empty), an optional free-text answer, a confidence score
and the elapsed time in milliseconds. -/
structure InferenceResult where
  calls : List ToolCall
  text : Option String
  confidence : ℚ
  latencyMs : ℚ
deriving DecidableEq, Repr

/-- A ToolCall is valid iff its name matches a Tool in the request's tool
set (spec §3). -/
def validCall (tools : List Tool) (c : ToolCall) : Bool :=
  tools.any (fun t => t.name == c.name)

/-- A call set has a valid call iff some call's name resolves to a tool. -/
def hasValidCall (tools : List Tool) (calls : List ToolCall) : Bool :=
  calls.any (validCall tools)

/-- Modelled from the spec: a ToolCall set is "effective" iff non-empty and
every call's name resolves to a Tool in the request (spec §3). -/
def effectiveCalls (tools : List Tool) (calls : List ToolCall) : Bool :=
  !calls.isEmpty && calls.all (validCall tools)

/-! ### Confidence Policy -/

/-- The configurable confidence tiers: one tool, two tools, three or more
tools (spec §4.3 reference tiers; exact values are configuration). -/
structure ThresholdTiers where
  oneTool : ℚ
  twoTools : ℚ
  threePlus : ℚ
deriving DecidableEq, Repr

/-- Modelled from the spec: `requiredThreshold(toolCount)` is a step
function over the number of tools offered (spec §4.3). -/
def requiredThreshold (t : ThresholdTiers) (toolCount : Nat) : ℚ :=
  if toolCount ≤ 1 then t.oneTool
  else if toolCount = 2 then t.twoTools
  else t.threePlus

/-- Modelled from the spec: the Confidence Policy's configuration — the
base tiers plus the optional "effective-call leniency" mode with its
margin (spec §4.3; leniency is explicitly enabled, default off). -/
structure PolicyConfig where
  tiers : ThresholdTiers
  leniencyEnabled : Bool
  leniencyMargin : ℚ
deriving DecidableEq, Repr

/-- The reference tiers of the design notes (1 tool → 0.50, 2 tools → 0.75,
3+ tools → 0.85) with leniency off, the shipped default. -/
def defaultPolicyConfig : PolicyConfig :=
  { tiers := ⟨1/2, 3/4, 17/20⟩, leniencyEnabled := false, leniencyMargin := 0 }

/-- Modelled from the spec: the local acceptance decision.  A local result
is ACCEPTED iff its call set resolves at least one tool (spec §3 invariant:
an empty or all-invalid call set is never treated as a successful local
result) and either its confidence clears `requiredThreshold(toolCount)`
(inclusive, spec §4.4) or the leniency rule applies: leniency enabled, the
call set effective, and the confidence within the margin below the
threshold (spec §4.3). -/
def acceptLocalResult (p : PolicyConfig) (tools : List Tool)
    (r : InferenceResult) : Bool :=
  hasValidCall tools r.calls &&
    (decide (requiredThreshold p.tiers tools.length ≤ r.confidence) ||
      (p.leniencyEnabled && effectiveCalls tools r.calls &&
        decide (requiredThreshold p.tiers tools.length - p.leniencyMargin ≤ r.confidence)))

/-! ### Complexity Classifier -/

/-- Word counter over a character stream: counts maximal runs of
non-whitespace characters; the flag records being inside a word. -/
def wordCountAux : Bool → List Char → Nat
  | _, [] => 0
  | inWord, c :: cs =>
    if c.isWhitespace then wordCountAux false cs
    else (if inWord then 0 else 1) + wordCountAux true cs

/-- Number of whitespace-separated words of a text. -/
def wordCount (s : String) : Nat :=
  wordCountAux false s.data

/-- Exact prefix test on character lists. -/
def isPrefixOfChars : List Char → List Char → Bool
  | [], _ => true
  | _ :: _, [] => false
  | p :: ps, c :: cs => p == c && isPrefixOfChars ps cs

/-- Occurrence test of a pattern at any position of a character list. -/
def containsSub (pat : List Char) : List Char → Bool
  | [] => isPrefixOfChars pat []
  | c :: cs => isPrefixOfChars pat (c :: cs) || containsSub pat cs

/-- Substring test: `m` occurs somewhere in `s`. -/
def containsSubstr (s m : String) : Bool :=
  containsSub m.data s.data

/-- Modelled from the spec: the Complexity Classifier's configuration —
length threshold, compound-marker set, fan-out threshold (spec §4.1, §6). -/
structure ComplexityConfig where
  lengthThreshold : Nat
  markers : List String
  fanoutThreshold : Nat
deriving DecidableEq, Repr

/-- The defaults of the design notes' current variant: more than 35 words,
markers for compound queries, fan-out above 1. -/
def defaultComplexityConfig : ComplexityConfig :=
  { lengthThreshold := 35
    markers := [" and ", "also", "then", ", "]
    fanoutThreshold := 1 }

/-- Modelled from the spec: `classifyComplexity(text, toolCount)` returns
true (bypass to cloud) iff the word count exceeds the length threshold, or
the text contains a compound-query marker and the tool count exceeds the
fan-out threshold (spec §4.1). -/
def classifyComplexity (cfg : ComplexityConfig) (text : String)
    (toolCount : Nat) : Bool :=
  decide (cfg.lengthThreshold < wordCount text) ||
    (cfg.markers.any (containsSubstr text) && decide (cfg.fanoutThreshold < toolCount))

/-! ### Domain Classifier -/

/-- Modelled from the spec: the Domain Classifier's configuration — the
"deep cognition" keyword set (spec §4.2). -/
structure DomainConfig where
  cognitionKeywords : List String
deriving DecidableEq, Repr

/-- Cognition keywords as suggested by spec §4.2. -/
def defaultDomainConfig : DomainConfig :=
  { cognitionKeywords := ["summarize", "draft", "explain"] }

/-- Modelled from the spec: `classifyDomain(text)` returns true iff the
text matches the configured deep-cognition keyword set (spec §4.2). -/
def classifyDomain (cfg : DomainConfig) (text : String) : Bool :=
  cfg.cognitionKeywords.any (containsSubstr text)

/-! ### Hybrid Router state machine -/

/-- Modelled from the spec: the full router configuration, externally
supplied (spec §6), including the open-question switch for cloud-only
latency accounting on fallback (spec §7, §9). -/
structure RouterConfig where
  complexity : ComplexityConfig
  domain : DomainConfig
  policy : PolicyConfig
  cloudOnlyLatency : Bool
deriving DecidableEq, Repr

/-- The shipped default configuration: design-note thresholds, leniency
off, summed latency accounting. -/
def defaultRouterConfig : RouterConfig :=
  { complexity := defaultComplexityConfig
    domain := defaultDomainConfig
    policy := defaultPolicyConfig
    cloudOnlyLatency := false }

/-- Outcome of the local attempt stage: a result, a timeout, or a backend
error (spec §4.4). -/
inductive LocalOutcome where
  | ok (r : InferenceResult)
  | timeout
  | backendError
deriving DecidableEq, Repr

/-- Outcome of the cloud fallback stage: a result or a backend error
(spec §4.5). -/
inductive CloudOutcome where
  | ok (r : InferenceResult)
  | backendError
deriving DecidableEq, Repr

/-- Terminal states of the router state machine (spec §4.6). -/
inductive FinalState where
  | acceptLocal
  | acceptCloud
  | failed
deriving DecidableEq, Repr

/-- Errors surfaced to the caller (spec §7). -/
inductive ErrorCode where
  | backendUnavailable
deriving DecidableEq, Repr

/-- Metrics returned with a response: source, confidence, latency, plus
the audit record of the local attempt (its latency and confidence are
recorded even when the local result was rejected, spec §4.4). -/
structure Metrics where
  source : Option Source
  confidence : ℚ
  latency_ms : ℚ
  localLatency : Option ℚ
  localConfidence : Option ℚ
deriving DecidableEq, Repr

/-- Final response content: the winning backend's calls and text. -/
structure ResponseContent where
  calls : List ToolCall
  text : Option String
deriving DecidableEq, Repr

/-- The router's observable outcome for one request: terminal state, final
content (none on failure), surfaced error, metrics, and the observability
record of which stages were consulted (spec §4.6). -/
structure RouterOutcome where
  finalState : FinalState
  response : Option ResponseContent
  error : Option ErrorCode
  metrics : Metrics
  consultedComplexity : Bool
  consultedDomain : Bool
  localAttempted : Bool
  cloudAttempted : Bool
deriving DecidableEq, Repr

/-- The raw user text of the current turn: the content of the most recent
user message. -/
def currentText (req : Request) : String :=
  match req.messages.reverse.find? (fun m => m.role == "user") with
  | some m => m.content
  | none => ""

/-- Modelled from the spec: the request reaches the Local Attempt stage
iff `forceLocal` is set (short-circuiting both classifiers) or neither
classifier bypasses to cloud (spec §3 invariant, §4.6). -/
def routesToLocal (cfg : RouterConfig) (req : Request) : Bool :=
  req.forceLocal ||
    (!classifyComplexity cfg.complexity (currentText req) req.tools.length &&
      !classifyDomain cfg.domain (currentText req))

/-- Modelled from the spec: the Cloud Fallback / Cloud Direct stage.  A
cloud success is always accepted with confidence 1.0; a cloud error is
terminal (`FAILED`, surfaced as `BackendUnavailable` with no partial
content).  The reported latency adds the local attempt's latency to the
cloud latency unless cloud-only accounting is configured; the local
attempt's latency and confidence are always kept for audit (spec §4.5,
§7). -/
def cloudStage (cfg : RouterConfig) (consultedC consultedD localAttempted : Bool)
    (localInfo : Option InferenceResult) (cloudOut : CloudOutcome) : RouterOutcome :=
  let localLat : ℚ := ((localInfo.map InferenceResult.latencyMs).getD 0)
  match cloudOut with
  | .ok r =>
    { finalState := .acceptCloud
      response := some ⟨r.calls, r.text⟩
      error := none
      metrics :=
        { source := some .cloud
          confidence := 1
          latency_ms := (if cfg.cloudOnlyLatency then 0 else localLat) + r.latencyMs
          localLatency := localInfo.map InferenceResult.latencyMs
          localConfidence := localInfo.map InferenceResult.confidence }
      consultedComplexity := consultedC
      consultedDomain := consultedD
      localAttempted := localAttempted
      cloudAttempted := true }
  | .backendError =>
    { finalState := .failed
      response := none
      error := some .backendUnavailable
      metrics :=
        { source := none
          confidence := 0
          latency_ms := localLat
          localLatency := localInfo.map InferenceResult.latencyMs
          localConfidence := localInfo.map InferenceResult.confidence }
      consultedComplexity := consultedC
      consultedDomain := consultedD
      localAttempted := localAttempted
      cloudAttempted := true }

/-- Modelled from the spec: the Hybrid Router, one decision per request
(spec §4.6).  `forceLocal` skips both classifiers; otherwise Complexity
then Domain are consulted and the first bypass wins; a surviving request
goes to the Local Attempt stage, whose result is audited by the Confidence
Policy; everything else falls forward to the cloud stage.  The backends'
outcomes are passed in explicitly, making the router a pure function. -/
def route (cfg : RouterConfig) (req : Request) (localOut : LocalOutcome)
    (cloudOut : CloudOutcome) : RouterOutcome :=
  let consultedC := !req.forceLocal
  let consultedD :=
    !req.forceLocal &&
      !classifyComplexity cfg.complexity (currentText req) req.tools.length
  if routesToLocal cfg req then
    match localOut with
    | .ok r =>
      if acceptLocalResult cfg.policy req.tools r then
        { finalState := .acceptLocal
          response := some ⟨r.calls, r.text⟩
          error := none
          metrics :=
            { source := some .onDevice
              confidence := r.confidence
              latency_ms := r.latencyMs
              localLatency := some r.latencyMs
              localConfidence := some r.confidence }
          consultedComplexity := consultedC
          consultedDomain := consultedD
          localAttempted := true
          cloudAttempted := false }
      else
        cloudStage cfg consultedC consultedD true (some r) cloudOut
    | .timeout => cloudStage cfg consultedC consultedD true none cloudOut
    | .backendError => cloudStage cfg consultedC consultedD true none cloudOut
  else
    cloudStage cfg consultedC consultedD false none cloudOut

end HybridRouting

namespace Scrubber

/-- Embedded from `scrubber.py`: the default sensitive keyword list ships
empty (to be extended via config later). -/
def DEFAULT_SENSITIVE_KEYWORDS : List String := []

/-- Case-insensitive comparison of two characters. -/
def lowerEq (a b : Char) : Bool :=
  a.toLower == b.toLower

/-- Case-insensitive prefix test on character lists. -/
def isPrefixCI : List Char → List Char → Bool
  | [], _ => true
  | _ :: _, [] => false
  | p :: ps, c :: cs => lowerEq p c && isPrefixCI ps cs

/-- Case-insensitive, left-to-right, non-overlapping replacement of every
occurrence of `pat` by `rep` (the behaviour of `re.sub` with an escaped
literal pattern under IGNORECASE).  An empty pattern replaces nothing. -/
def replaceCI (pat rep : List Char) : List Char → List Char
  | [] => []
  | c :: cs =>
    if pat ≠ [] && isPrefixCI pat (c :: cs) then
      rep ++ replaceCI pat rep (cs.drop (pat.length - 1))
    else
      c :: replaceCI pat rep cs
termination_by l => l.length
decreasing_by
  · simp only [List.length_drop, List.length_cons]
    omega
  · simp only [List.length_cons]
    omega

/-- One keyword's whole-text redaction: replace case-insensitive matches
of `k` in `s` with the redaction marker. -/
def scrubKeyword (k s : String) : String :=
  ⟨replaceCI k.data "[REDACTED]".data s.data⟩

/-- A keyword is blank iff it strips to the empty string, i.e. every
character is whitespace (the `not k.strip()` test of the source). -/
def isBlank (k : String) : Bool :=
  k.data.all Char.isWhitespace

/-- Embedded from `scrubber.py` `scrub`: returns the text unchanged when
it is empty; otherwise folds over the effective keyword list (the explicit
argument, or `DEFAULT_SENSITIVE_KEYWORDS` when none is given), skipping
keywords that are blank after stripping and redacting the rest. -/
def scrub (text : String) (keywords : Option (List String) := none) : String :=
  if text = "" then text
  else
    let kw := keywords.getD DEFAULT_SENSITIVE_KEYWORDS
    kw.foldl (fun out k => if isBlank k then out else scrubKeyword k out) text

end Scrubber

namespace Parsers

/-- Embedded from `parsers.py`: the supported lowercase extensions. -/
def SUPPORTED_EXTENSIONS : List String :=
  [".pdf", ".docx", ".doc",
   ".py", ".js", ".ts", ".go", ".md", ".txt", ".json", ".yaml", ".yml",
   ".csv", ".xlsx", ".xls"]

/-- Index of the last occurrence of `c` in a character list, if any. -/
def lastIndexOf (c : Char) : List Char → Option Nat
  | [] => none
  | x :: xs =>
    match lastIndexOf c xs with
    | some i => some (i + 1)
    | none => if x == c then some 0 else none

/-- Splits a character list on a separator character, keeping empty
pieces. -/
def splitOnChar (sep : Char) : List Char → List (List Char)
  | [] => [[]]
  | c :: cs =>
    if c == sep then [] :: splitOnChar sep cs
    else
      match splitOnChar sep cs with
      | [] => [[c]]
      | w :: ws => (c :: w) :: ws

/-- The final path component (`pathlib.Path.name`). -/
def pathName (p : String) : String :=
  ⟨((splitOnChar '/' p.data).filter (fun s => s ≠ [])).getLastD []⟩

/-- `pathlib.Path.suffix` of a file name: the substring from the last dot,
provided that dot is neither the first nor the last character. -/
def pySuffix (name : String) : String :=
  match lastIndexOf '.' name.data with
  | none => ""
  | some i =>
    if 0 < i ∧ i < name.data.length - 1 then ⟨name.data.drop i⟩ else ""

/-- ASCII-style lowercasing, character by character. -/
def lowerStr (s : String) : String :=
  ⟨s.data.map Char.toLower⟩

/-- The lowercased extension of a path, as computed by `parse_file`. -/
def fileExt (p : String) : String :=
  lowerStr (pySuffix (pathName p))

/-- The environment of format-specific parsers.  Each one performs I/O in
the source, so it is abstracted as a function that either returns the
extracted text (`_parse_csv` and `_parse_xlsx` may return `None`) or
raises an exception, modelled as `Except`. -/
structure ParserEnv where
  parse_pdf : String → Except String (Option String)
  parse_docx : String → Except String (Option String)
  parse_csv : String → Except String (Option String)
  parse_xlsx : String → Except String (Option String)
  read_text : String → Except String String

/-- The format dispatch inside the `try` block of `parse_file`: PDF, then
DOCX/DOC, then CSV, then XLSX/XLS, then UTF-8 text for the code/text
extensions, falling through to `None`. -/
def dispatchParse (env : ParserEnv) (suffix p : String) : Except String (Option String) :=
  if suffix == ".pdf" then env.parse_pdf p
  else if suffix == ".docx" || suffix == ".doc" then env.parse_docx p
  else if suffix == ".csv" then env.parse_csv p
  else if suffix == ".xlsx" || suffix == ".xls" then env.parse_xlsx p
  else if [".py", ".js", ".ts", ".go", ".md", ".txt", ".json", ".yaml", ".yml"].contains suffix then
    (env.read_text p).map some
  else .ok none

/-- Embedded from `parsers.py` `parse_file`: returns `none` when the
lowercased extension is unsupported; otherwise dispatches on the format,
and any exception of the format-specific parser yields `none`. -/
def parse_file (env : ParserEnv) (p : String) : Option String :=
  let suffix := fileExt p
  if SUPPORTED_EXTENSIONS.contains suffix then
    match dispatchParse env suffix p with
    | .ok v => v
    | .error _ => none
  else none

/-- A concrete parser environment whose format parsers all succeed, used
to instantiate the universally quantified theorems. -/
def sampleEnv : ParserEnv :=
  { parse_pdf := fun _ => .ok (some "pdf text")
    parse_docx := fun _ => .ok (some "docx text")
    parse_csv := fun _ => .ok (some "csv table")
    parse_xlsx := fun _ => .ok (some "xlsx table")
    read_text := fun _ => .ok "raw text" }

end Parsers

namespace HybridRouting

/-! ### Concrete fixtures for instantiating the theorems -/

/-- A single concrete tool. -/
def sampleTool : Tool := ⟨"set_dnd", "Toggle do-not-disturb"⟩

/-- A one-tool request that is not forced local. -/
def sampleRequest : Request :=
  { messages := [⟨"user", "turn on dnd"⟩], tools := [sampleTool], forceLocal := false }

/-- The same one-tool request with the force-local flag set. -/
def forceLocalRequest : Request :=
  { messages := [⟨"user", "turn on dnd"⟩], tools := [sampleTool], forceLocal := true }

/-- A local result whose single call names no tool of the request, at
exactly the one-tool threshold confidence of the default tiers. -/
def invalidCallResult : InferenceResult :=
  ⟨[⟨"launch_rocket", []⟩], none, 1/2, 120⟩

/-- A local result with a valid call but confidence far below threshold. -/
def lowConfResult : InferenceResult :=
  ⟨[⟨"set_dnd", [("status", "true")]⟩], none, 1/5, 130⟩

/-- A local result with a valid call at exactly the one-tool threshold. -/
def thresholdResult : InferenceResult :=
  ⟨[⟨"set_dnd", [("status", "true")]⟩], none, 1/2, 90⟩

/-- A local result with a valid call at threshold minus a 0.05 gap. -/
def nearMissResult : InferenceResult :=
  ⟨[⟨"set_dnd", [("status", "true")]⟩], none, 1/2 - 1/20, 150⟩

/-- A successful cloud result. -/
def cloudResult : InferenceResult :=
  ⟨[⟨"set_dnd", [("status", "true")]⟩], some "done", 1, 800⟩

/-- A policy with the effective-call leniency mode enabled at margin
0.08 (the design notes' conservative variant). -/
def lenientPolicyConfig : PolicyConfig :=
  { tiers := ⟨1/2, 3/4, 17/20⟩, leniencyEnabled := true, leniencyMargin := 2/25 }

end HybridRouting

open HybridRouting Scrubber Parsers

/-! ## Helper lemmas -/

/-- An effective call set always resolves at least one tool. -/
theorem hasValidCall_of_effective (tools : List Tool) (cs : List ToolCall)
    (h : effectiveCalls tools cs = true) : hasValidCall tools cs = true := by
  rcases cs with _ | ⟨c, cs⟩
  · simp [effectiveCalls] at h
  · simp only [effectiveCalls, List.all_cons, List.isEmpty_cons, Bool.not_false,
      Bool.true_and, Bool.and_eq_true] at h
    simp [hasValidCall, List.any_cons, h.1]

/-- The cloud stage never terminates in `ACCEPT_LOCAL` and always marks
the cloud backend as attempted. -/
theorem cloudStage_shape (cfg : RouterConfig) (cC cD la : Bool)
    (li : Option InferenceResult) (co : CloudOutcome) :
    (cloudStage cfg cC cD la li co).finalState ≠ FinalState.acceptLocal ∧
      (cloudStage cfg cC cD la li co).cloudAttempted = true := by
  cases co <;> simp [cloudStage]

/-- Folding the scrub step over a list of blank keywords changes nothing. -/
theorem scrub_foldl_blank_id (l : List String) (h : ∀ k ∈ l, isBlank k = true) (t : String) :
    l.foldl (fun out k => if isBlank k then out else Scrubber.scrubKeyword k out) t = t := by
  induction l generalizing t with
  | nil => rfl
  | cons k ks ih =>
    rw [List.foldl_cons, if_pos (h k (List.mem_cons_self _ _))]
    exact ih (fun x hx => h x (List.mem_cons_of_mem _ hx)) t

/-! ## Claim theorems -/

/-- C2: for all tool counts m ≤ n, `requiredThreshold(m) ≤
requiredThreshold(n)` — the required confidence is a monotonically
non-decreasing step function of the number of tools offered, for any
configuration whose tiers are ordered. -/
theorem C2_requiredThreshold_monotone (t : ThresholdTiers)
    (h1 : t.oneTool ≤ t.twoTools) (h2 : t.twoTools ≤ t.threePlus)
    (m n : Nat) (hmn : m ≤ n) :
    requiredThreshold t m ≤ requiredThreshold t n := by
  unfold requiredThreshold
  split_ifs <;> first | linarith | (exfalso; omega)

/-- Witness for C2 at the default tiers and tool counts 1 ≤ 3. -/
theorem C2_requiredThreshold_monotone_witness :
    requiredThreshold defaultPolicyConfig.tiers 1 ≤
      requiredThreshold defaultPolicyConfig.tiers 3 :=
  C2_requiredThreshold_monotone defaultPolicyConfig.tiers
    (by norm_num [defaultPolicyConfig]) (by norm_num [defaultPolicyConfig])
    1 3 (by norm_num)

/-- C3: the Complexity Classifier bypasses to cloud iff the word count
exceeds the length threshold, or the text contains a compound-query
marker and the tool count exceeds the fan-out threshold; in particular a
short compound text over a fan-out above threshold is bypassed even
though its word count is under the length threshold. -/
theorem C3_classifyComplexity_spec (cfg : ComplexityConfig) (text : String)
    (toolCount : Nat) :
    (classifyComplexity cfg text toolCount = true ↔
      (cfg.lengthThreshold < wordCount text ∨
        ((∃ m ∈ cfg.markers, containsSubstr text m = true) ∧
          cfg.fanoutThreshold < toolCount))) ∧
    (wordCount "set a timer and play music" ≤ defaultComplexityConfig.lengthThreshold ∧
      classifyComplexity defaultComplexityConfig "set a timer and play music" 2 = true) := by
  constructor
  · simp [classifyComplexity, List.any_eq_true, Bool.or_eq_true, Bool.and_eq_true,
      decide_eq_true_eq]
  · exact ⟨by decide, by decide⟩

/-- C5 counterexample: a local result with a non-empty call set at exactly
the required threshold confidence, whose single call names no tool of the
request, is not accepted — refuting the claim for all non-empty call
sets. -/
theorem C5_counterexample_invalid_nonempty_at_threshold :
    invalidCallResult.calls ≠ [] ∧
    invalidCallResult.confidence =
      requiredThreshold defaultPolicyConfig.tiers sampleRequest.tools.length ∧
    acceptLocalResult defaultPolicyConfig sampleRequest.tools invalidCallResult = false := by
  refine ⟨by decide, ?_, ?_⟩
  · norm_num [invalidCallResult, requiredThreshold, defaultPolicyConfig, sampleRequest,
      sampleTool]
  · have h : hasValidCall sampleRequest.tools invalidCallResult.calls = false := by decide
    simp [acceptLocalResult, h]

/-- C5 (amended): a local result whose call set contains at least one call
naming a tool of the request and whose confidence equals
`requiredThreshold(toolCount)` exactly is ACCEPTED — the comparison is
inclusive at the boundary. -/
theorem C5_amended_boundary_inclusive (p : PolicyConfig) (tools : List Tool)
    (r : InferenceResult)
    (h1 : hasValidCall tools r.calls = true)
    (h2 : r.confidence = requiredThreshold p.tiers tools.length) :
    acceptLocalResult p tools r = true := by
  simp [acceptLocalResult, h1, h2]

/-- Witness for the amended C5: a valid call set at exactly the one-tool
threshold is accepted under the default policy. -/
theorem C5_amended_boundary_inclusive_witness :
    hasValidCall [sampleTool] thresholdResult.calls = true ∧
    thresholdResult.confidence = requiredThreshold defaultPolicyConfig.tiers 1 ∧
    acceptLocalResult defaultPolicyConfig [sampleTool] thresholdResult = true :=
  ⟨by decide,
    by norm_num [thresholdResult, requiredThreshold, defaultPolicyConfig],
    C5_amended_boundary_inclusive defaultPolicyConfig [sampleTool] thresholdResult
      (by decide)
      (by norm_num [thresholdResult, requiredThreshold, defaultPolicyConfig])⟩

/-- C4: a local result with effective calls at confidence exactly
`requiredThreshold - gap` (gap positive) is ACCEPTED iff the effective-call
leniency mode is enabled with a margin of at least that gap; with leniency
disabled — in particular under the default configuration — it is
REJECTED. -/
theorem C4_leniency_boundary (p : PolicyConfig) (tools : List Tool)
    (r : InferenceResult) (gap : ℚ)
    (h1 : 0 < gap)
    (h2 : effectiveCalls tools r.calls = true)
    (h3 : r.confidence = requiredThreshold p.tiers tools.length - gap) :
    (acceptLocalResult p tools r = true ↔
      (p.leniencyEnabled = true ∧ gap ≤ p.leniencyMargin)) ∧
    (p.leniencyEnabled = false → acceptLocalResult p tools r = false) ∧
    (p = defaultPolicyConfig → acceptLocalResult p tools r = false) := by
  have hv : hasValidCall tools r.calls = true := hasValidCall_of_effective tools r.calls h2
  have hA : ¬ (requiredThreshold p.tiers tools.length ≤ r.confidence) := by
    rw [h3]; linarith
  have hB : (requiredThreshold p.tiers tools.length - p.leniencyMargin ≤ r.confidence) ↔
      gap ≤ p.leniencyMargin := by
    rw [h3]; constructor <;> intro <;> linarith
  have hiff : acceptLocalResult p tools r = true ↔
      (p.leniencyEnabled = true ∧ gap ≤ p.leniencyMargin) := by
    simp only [acceptLocalResult, hv, h2, Bool.true_and, Bool.and_true, Bool.or_eq_true,
      Bool.and_eq_true, decide_eq_true_eq, hA, false_or, hB]
  refine ⟨hiff, ?_, ?_⟩
  · intro hoff
    rw [Bool.eq_false_iff, Ne, hiff, hoff]
    simp
  · intro hp
    rw [Bool.eq_false_iff, Ne, hiff, hp]
    simp [defaultPolicyConfig]

/-- Witness for C4 at gap 0.05: with leniency enabled at margin 0.08 the
near-miss effective result is accepted. -/
theorem C4_leniency_boundary_witness :
    (0:ℚ) < 1/20 ∧
    effectiveCalls [sampleTool] nearMissResult.calls = true ∧
    nearMissResult.confidence = requiredThreshold lenientPolicyConfig.tiers 1 - 1/20 ∧
    acceptLocalResult lenientPolicyConfig [sampleTool] nearMissResult = true := by
  refine ⟨by norm_num, by decide, ?_, ?_⟩
  · norm_num [nearMissResult, requiredThreshold, lenientPolicyConfig]
  · exact ((C4_leniency_boundary lenientPolicyConfig [sampleTool] nearMissResult (1/20)
      (by norm_num) (by decide)
      (by norm_num [nearMissResult, requiredThreshold, lenientPolicyConfig])).1).mpr
      ⟨rfl, by norm_num [lenientPolicyConfig]⟩

/-- C1: a local result whose call set is empty, or names no tool of the
request, is never ACCEPTED regardless of its confidence; the router always
proceeds to the cloud stage. -/
theorem C1_empty_or_all_invalid_never_accepted (cfg : RouterConfig) (req : Request)
    (r : InferenceResult) (cloudOut : CloudOutcome)
    (h : r.calls = [] ∨ ∀ c ∈ r.calls, validCall req.tools c = false) :
    (route cfg req (.ok r) cloudOut).finalState ≠ .acceptLocal ∧
      (route cfg req (.ok r) cloudOut).cloudAttempted = true := by
  have hv : hasValidCall req.tools r.calls = false := by
    rcases h with h | h
    · simp [hasValidCall, h]
    · simp only [hasValidCall, List.any_eq_false]
      intro c hc
      simp [h c hc]
  have hacc : acceptLocalResult cfg.policy req.tools r = false := by
    simp [acceptLocalResult, hv]
  unfold route
  split
  · cases cloudOut <;> simp [hacc, cloudStage]
  · cases cloudOut <;> simp [cloudStage]

/-- Witness for C1: an all-invalid call set at threshold confidence is not
accepted and the request falls forward to the cloud. -/
theorem C1_empty_or_all_invalid_never_accepted_witness :
    (invalidCallResult.calls = [] ∨
      ∀ c ∈ invalidCallResult.calls, validCall sampleRequest.tools c = false) ∧
    (route defaultRouterConfig sampleRequest (.ok invalidCallResult)
        (.ok cloudResult)).finalState ≠ .acceptLocal ∧
    (route defaultRouterConfig sampleRequest (.ok invalidCallResult)
        (.ok cloudResult)).cloudAttempted = true :=
  ⟨Or.inr (by decide),
    (C1_empty_or_all_invalid_never_accepted defaultRouterConfig sampleRequest
      invalidCallResult (.ok cloudResult) (Or.inr (by decide))).1,
    (C1_empty_or_all_invalid_never_accepted defaultRouterConfig sampleRequest
      invalidCallResult (.ok cloudResult) (Or.inr (by decide))).2⟩

/-- C6: with `forceLocal` set, neither classifier is consulted and the
Local Attempt stage is always entered first, yet the Confidence Policy
still decides acceptance, so a local result ends in `ACCEPT_LOCAL` exactly
when the policy accepts it. -/
theorem C6_forceLocal_skips_classifiers (cfg : RouterConfig) (req : Request)
    (localOut : LocalOutcome) (cloudOut : CloudOutcome)
    (h : req.forceLocal = true) :
    (route cfg req localOut cloudOut).consultedComplexity = false ∧
    (route cfg req localOut cloudOut).consultedDomain = false ∧
    (route cfg req localOut cloudOut).localAttempted = true ∧
    (∀ r : InferenceResult, localOut = .ok r →
      ((route cfg req localOut cloudOut).finalState = .acceptLocal ↔
        acceptLocalResult cfg.policy req.tools r = true)) := by
  have hl : routesToLocal cfg req = true := by simp [routesToLocal, h]
  cases localOut with
  | ok r =>
    by_cases ha : acceptLocalResult cfg.policy req.tools r
    · simp [route, hl, h, ha]
    · cases cloudOut <;> simp [route, hl, h, ha, cloudStage]
  | timeout => cases cloudOut <;> simp [route, hl, h, cloudStage]
  | backendError => cases cloudOut <;> simp [route, hl, h, cloudStage]

/-- Witness for C6 on a forced-local request with a low-confidence local
result. -/
theorem C6_forceLocal_skips_classifiers_witness :
    forceLocalRequest.forceLocal = true ∧
    ((route defaultRouterConfig forceLocalRequest (.ok lowConfResult)
        (.ok cloudResult)).consultedComplexity = false ∧
      (route defaultRouterConfig forceLocalRequest (.ok lowConfResult)
        (.ok cloudResult)).consultedDomain = false ∧
      (route defaultRouterConfig forceLocalRequest (.ok lowConfResult)
        (.ok cloudResult)).localAttempted = true ∧
      (∀ r : InferenceResult, LocalOutcome.ok lowConfResult = .ok r →
        ((route defaultRouterConfig forceLocalRequest (.ok lowConfResult)
            (.ok cloudResult)).finalState = .acceptLocal ↔
          acceptLocalResult defaultRouterConfig.policy forceLocalRequest.tools r = true))) :=
  ⟨rfl, C6_forceLocal_skips_classifiers defaultRouterConfig forceLocalRequest
    (.ok lowConfResult) (.ok cloudResult) rfl⟩

/-- The low-confidence fixture result is rejected by the default policy. -/
theorem lowConfResult_rejected :
    acceptLocalResult defaultRouterConfig.policy forceLocalRequest.tools lowConfResult = false := by
  simp only [acceptLocalResult, defaultRouterConfig, defaultPolicyConfig, Bool.false_and,
    Bool.and_false, Bool.or_false, Bool.and_eq_false_iff, decide_eq_false_iff_not]
  right
  norm_num [lowConfResult, requiredThreshold, forceLocalRequest, sampleTool]

/-- C7: when the local attempt is rejected by the policy and the cloud
attempt returns a backend error, the router terminates in `FAILED`,
surfaces `BackendUnavailable` with no partial content, and the metrics
still carry the local attempt's latency and confidence. -/
theorem C7_failed_keeps_local_audit_metrics (cfg : RouterConfig) (req : Request)
    (r : InferenceResult)
    (hloc : routesToLocal cfg req = true)
    (hrej : acceptLocalResult cfg.policy req.tools r = false) :
    (route cfg req (.ok r) .backendError).finalState = .failed ∧
    (route cfg req (.ok r) .backendError).error = some .backendUnavailable ∧
    (route cfg req (.ok r) .backendError).response = none ∧
    (route cfg req (.ok r) .backendError).metrics.localLatency = some r.latencyMs ∧
    (route cfg req (.ok r) .backendError).metrics.localConfidence = some r.confidence := by
  simp [route, hloc, hrej, cloudStage]

/-- Witness for C7 on a forced-local request whose local result is
rejected for low confidence and whose cloud attempt errors out. -/
theorem C7_failed_keeps_local_audit_metrics_witness :
    routesToLocal defaultRouterConfig forceLocalRequest = true ∧
    acceptLocalResult defaultRouterConfig.policy forceLocalRequest.tools lowConfResult = false ∧
    ((route defaultRouterConfig forceLocalRequest (.ok lowConfResult)
        CloudOutcome.backendError).finalState = .failed ∧
      (route defaultRouterConfig forceLocalRequest (.ok lowConfResult)
        CloudOutcome.backendError).error = some .backendUnavailable ∧
      (route defaultRouterConfig forceLocalRequest (.ok lowConfResult)
        CloudOutcome.backendError).response = none ∧
      (route defaultRouterConfig forceLocalRequest (.ok lowConfResult)
        CloudOutcome.backendError).metrics.localLatency = some lowConfResult.latencyMs ∧
      (route defaultRouterConfig forceLocalRequest (.ok lowConfResult)
        CloudOutcome.backendError).metrics.localConfidence = some lowConfResult.confidence) := by
  have hloc : routesToLocal defaultRouterConfig forceLocalRequest = true := by decide
  have hrej : acceptLocalResult defaultRouterConfig.policy forceLocalRequest.tools
      lowConfResult = false := lowConfResult_rejected
  exact ⟨hloc, hrej,
    C7_failed_keeps_local_audit_metrics defaultRouterConfig forceLocalRequest
      lowConfResult hloc hrej⟩

/-- C8: when both backends are attempted (local rejected, then cloud
succeeds) exactly the cloud backend's output becomes the final response,
and the reported latency is the sum of both attempts' latencies unless the
cloud-only accounting mode is configured, in which case it is the cloud
latency alone. -/
theorem C8_fallback_latency_accounting (cfg : RouterConfig) (req : Request)
    (rl rc : InferenceResult)
    (hloc : routesToLocal cfg req = true)
    (hrej : acceptLocalResult cfg.policy req.tools rl = false) :
    (route cfg req (.ok rl) (.ok rc)).localAttempted = true ∧
    (route cfg req (.ok rl) (.ok rc)).cloudAttempted = true ∧
    (route cfg req (.ok rl) (.ok rc)).finalState = .acceptCloud ∧
    (route cfg req (.ok rl) (.ok rc)).response = some ⟨rc.calls, rc.text⟩ ∧
    (cfg.cloudOnlyLatency = false →
      (route cfg req (.ok rl) (.ok rc)).metrics.latency_ms = rl.latencyMs + rc.latencyMs) ∧
    (cfg.cloudOnlyLatency = true →
      (route cfg req (.ok rl) (.ok rc)).metrics.latency_ms = rc.latencyMs) := by
  by_cases hc : cfg.cloudOnlyLatency <;> simp [route, hloc, hrej, cloudStage, hc]

/-- Witness for C8: under the default (summing) configuration the
fallback's reported latency is the local plus the cloud latency. -/
theorem C8_fallback_latency_accounting_witness :
    routesToLocal defaultRouterConfig forceLocalRequest = true ∧
    acceptLocalResult defaultRouterConfig.policy forceLocalRequest.tools lowConfResult = false ∧
    defaultRouterConfig.cloudOnlyLatency = false ∧
    (route defaultRouterConfig forceLocalRequest (.ok lowConfResult)
      (.ok cloudResult)).metrics.latency_ms = lowConfResult.latencyMs + cloudResult.latencyMs := by
  have hloc : routesToLocal defaultRouterConfig forceLocalRequest = true := by decide
  have hrej : acceptLocalResult defaultRouterConfig.policy forceLocalRequest.tools
      lowConfResult = false := lowConfResult_rejected
  exact ⟨hloc, hrej, rfl,
    ((C8_fallback_latency_accounting defaultRouterConfig forceLocalRequest
      lowConfResult cloudResult hloc hrej).2.2.2.2).1 rfl⟩

/-- C9: the scrubber is the identity whenever the effective keyword list
contains no non-blank keyword; in particular with the shipped default
(empty `DEFAULT_SENSITIVE_KEYWORDS`) no redaction ever occurs. -/
theorem C9_scrub_identity_without_keywords (text : String)
    (kws : Option (List String))
    (h : ∀ k ∈ kws.getD DEFAULT_SENSITIVE_KEYWORDS, isBlank k = true) :
    scrub text kws = text ∧ scrub text none = text := by
  have h2 : scrub text none = text := by
    unfold scrub
    split <;> rfl
  refine ⟨?_, h2⟩
  unfold scrub
  split
  · rfl
  · exact scrub_foldl_blank_id (kws.getD DEFAULT_SENSITIVE_KEYWORDS) h text

/-- Witness for C9: a list of blank keywords (and the default empty list)
leaves a concrete text untouched. -/
theorem C9_scrub_identity_without_keywords_witness :
    (∀ k ∈ (some ["", "  "] : Option (List String)).getD DEFAULT_SENSITIVE_KEYWORDS,
      isBlank k = true) ∧
    scrub "meet Alice at noon" (some ["", "  "]) = "meet Alice at noon" ∧
    scrub "meet Alice at noon" none = "meet Alice at noon" := by
  have h : ∀ k ∈ (some ["", "  "] : Option (List String)).getD DEFAULT_SENSITIVE_KEYWORDS,
      isBlank k = true := by decide
  exact ⟨h, (C9_scrub_identity_without_keywords "meet Alice at noon" (some ["", "  "]) h).1,
    (C9_scrub_identity_without_keywords "meet Alice at noon" (some ["", "  "]) h).2⟩

/-- C10: `parse_file` is total and option-valued — it returns `none`
whenever the lowercased extension is unsupported or the dispatched
format-specific parser raises, and it can return `some` text only for
supported extensions. -/
theorem C10_parse_file_total_option (env : ParserEnv) (p : String) :
    (SUPPORTED_EXTENSIONS.contains (fileExt p) = false → parse_file env p = none) ∧
    (∀ s, parse_file env p = some s → SUPPORTED_EXTENSIONS.contains (fileExt p) = true) ∧
    (∀ msg, dispatchParse env (fileExt p) p = .error msg → parse_file env p = none) := by
  refine ⟨?_, ?_, ?_⟩
  · intro h
    simp only [parse_file]
    rw [h]
    rfl
  · intro s hs
    by_cases h : SUPPORTED_EXTENSIONS.contains (fileExt p) = true
    · exact h
    · exfalso
      rw [Bool.not_eq_true] at h
      simp only [parse_file] at hs
      rw [h] at hs
      simp at hs
  · intro msg hm
    simp only [parse_file]
    split
    · rw [hm]
    · rfl

/-- Witness for C10: an unsupported extension yields `none` even when all
format parsers succeed; a supported one can yield text. -/
theorem C10_parse_file_total_option_witness :
    SUPPORTED_EXTENSIONS.contains (fileExt "notes.exe") = false ∧
    parse_file sampleEnv "notes.exe" = none ∧
    parse_file sampleEnv "syllabus.pdf" = some "pdf text" :=
  ⟨by decide,
    (C10_parse_file_total_option sampleEnv "notes.exe").1 (by decide),
    by decide⟩
